import Mathlib

/-!
Verification development for the `sup-dash` repository's oracle-sync core
(`src/oracle-sync/sync.py` and `src/oracle-sync/syncpl.py`).

The Python code is shallowly embedded: dynamically typed row values become the
inductive `Value`; Python exceptions become `Except PyErrKind`; the ClickHouse
destination is a state (`CHState`) holding the identifier column of the target
table; query failures are injected through explicit fault flags so that the
fallback logic of `get_last_sync_id` and the scheduling loops can be stated
and proved.  Identifiers are modelled as `Nat` — the code treats the id column
as an opaque totally ordered value (`MAX`, `ORDER BY ... DESC`, `> :last_id`).
-/

namespace SupDash

/-- Kinds of Python exceptions that matter to `DataTypeConverter._convert_value`,
which catches exactly `(ValueError, TypeError)` (sync.py line 235).
`overflowError` is Python's OverflowError — raised by `float()` on an
out-of-range integer and by `int()` on an infinite float — which that clause
does NOT catch; `other` stands for any further uncaught kind. -/
inductive PyErrKind
  | valueError
  | typeError
  | overflowError
  | other
deriving DecidableEq

/-- Dynamically typed Python values that flow through the converter: the value
kinds produced by the Oracle cursor / pandas `to_dict` path (sync.py lines
642-683): None, int, float, str, bool, datetime and date objects.
Finite floats are modelled as rationals (rounding to binary64 is abstracted
away); the non-finite floats `inf`, `-inf` and `nan` — which make Python's
`int()` raise — have their own constructors.  Datetimes and dates are integer
timestamps / day numbers. -/
inductive Value
  | null
  | int (n : Int)
  | float (q : Rat)
  | floatInf (neg : Bool)
  | floatNaN
  | str (s : String)
  | bool (b : Bool)
  | datetime (ts : Int)
  | date (d : Int)
deriving DecidableEq

/-- Decidable equality for `Except`, so concrete converter outcomes can be
settled by `decide`. -/
instance {ε α : Type} [DecidableEq ε] [DecidableEq α] : DecidableEq (Except ε α)
  | .ok a, .ok b =>
    if h : a = b then .isTrue (by rw [h])
    else .isFalse (fun hh => h (Except.ok.inj hh))
  | .ok _, .error _ => .isFalse (fun hh => Except.noConfusion hh)
  | .error _, .ok _ => .isFalse (fun hh => Except.noConfusion hh)
  | .error e₁, .error e₂ =>
    if h : e₁ = e₂ then .isTrue (by rw [h])
    else .isFalse (fun hh => h (Except.error.inj hh))

/-- Truncation toward zero, the behaviour of Python `int()` on a float. -/
def truncQ (q : Rat) : Int := if 0 ≤ q then ⌊q⌋ else ⌈q⌉

/-- Unsigned decimal digit parsing on a character list (structural, so the
kernel can evaluate it). -/
def digitsToNatAux : List Char → Nat → Option Nat
  | [], acc => some acc
  | c :: cs, acc =>
    if c.isDigit then digitsToNatAux cs (acc * 10 + (c.toNat - 48)) else none

/-- A non-empty all-digit character list as a natural number. -/
def digitsToNat : List Char → Option Nat
  | [] => none
  | l => digitsToNatAux l 0

/-- Leading and trailing whitespace removal (Python `str.strip`, applied by
`int()`/`float()` to string arguments). -/
def trimChars (l : List Char) : List Char :=
  ((l.dropWhile Char.isWhitespace).reverse.dropWhile Char.isWhitespace).reverse

/-- Optionally signed decimal integer on a character list. -/
def parseIntChars : List Char → Option Int
  | '-' :: rest => (digitsToNat rest).map (fun n => -(n : Int))
  | '+' :: rest => (digitsToNat rest).map Int.ofNat
  | l => (digitsToNat l).map Int.ofNat

/-- Model of Python `int(x)` string parsing: optionally signed decimal digits
(whitespace stripped).  Underscore separators are not modelled. -/
def parseIntStr (s : String) : Option Int := parseIntChars (trimChars s.data)

/-- Split a character list at the first dot. -/
def splitDot : List Char → List Char × Option (List Char)
  | [] => ([], none)
  | '.' :: rest => ([], some rest)
  | c :: rest =>
    let p := splitDot rest
    (c :: p.1, p.2)

/-- Optionally signed decimal number with an optional fractional part, on a
character list. -/
def parseFloatChars (l : List Char) : Option Rat :=
  let sp : Rat × List Char :=
    match l with
    | '-' :: rest => (-1, rest)
    | '+' :: rest => (1, rest)
    | _ => (1, l)
  match splitDot sp.2 with
  | (a, none) => (digitsToNat a).map (fun n => sp.1 * n)
  | (a, some b) =>
    match digitsToNat a, digitsToNat b with
    | some x, some y =>
      some (sp.1 * ((x : Rat) + (y : Rat) / ((10 : Rat) ^ b.length)))
    | _, _ => none

/-- Model of Python `float(x)` string parsing: optionally signed decimal
digits with an optional fractional part (whitespace stripped). -/
def parseFloatStr (s : String) : Option Rat := parseFloatChars (trimChars s.data)

/-- The smallest magnitude at which Python's `float(n)` on an int raises
OverflowError: integers with `|n| ≥ 2^1024 - 2^970` round (to nearest, ties to
even) to `±2^1024`, which is out of binary64 range. -/
def floatOverflowBound : Nat := 2 ^ 1024 - 2 ^ 970

/-- Python `int(x)` on the modelled value domain: ints and bools convert;
finite floats truncate; an infinite float raises OverflowError (NOT caught by
`_convert_value`'s except clause) and NaN raises ValueError; numeric strings
parse, other strings raise `ValueError`; date-time objects and `None` raise
`TypeError`. -/
def pyInt : Value → Except PyErrKind Value
  | .int n => .ok (.int n)
  | .float q => .ok (.int (truncQ q))
  | .floatInf _ => .error .overflowError
  | .floatNaN => .error .valueError
  | .bool b => .ok (.int (if b then 1 else 0))
  | .str s =>
    match parseIntStr s with
    | some n => .ok (.int n)
    | none => .error .valueError
  | .datetime _ => .error .typeError
  | .date _ => .error .typeError
  | .null => .error .typeError

/-- Python `float(x)` on the modelled value domain: an int of magnitude
≥ `floatOverflowBound` raises OverflowError (NOT caught by `_convert_value`'s
except clause), smaller ints convert (binary64 rounding abstracted away);
floats, including inf and nan, pass through; strings parse or raise ValueError
(Python's special strings inf/infinity/nan are not modelled — omitting them
only adds caught ValueError failures); date-time objects and `None` raise
`TypeError`. -/
def pyFloat : Value → Except PyErrKind Value
  | .int n =>
    if n.natAbs < floatOverflowBound then .ok (.float (n : Rat))
    else .error .overflowError
  | .float q => .ok (.float q)
  | .floatInf b => .ok (.floatInf b)
  | .floatNaN => .ok .floatNaN
  | .bool b => .ok (.float (if b then 1 else 0))
  | .str s =>
    match parseFloatStr s with
    | some q => .ok (.float q)
    | none => .error .valueError
  | .datetime _ => .error .typeError
  | .date _ => .error .typeError
  | .null => .error .typeError

/-- Python `str(x)`: total, never raises.  The exact rendering of floats and
date-time objects is approximated; what matters to the claims is totality and
that the result is a string value. -/
def pyStr : Value → String
  | .null => "None"
  | .int n => toString n
  | .float q => toString q
  | .floatInf b => if b then "-inf" else "inf"
  | .floatNaN => "nan"
  | .str s => s
  | .bool b => if b then "True" else "False"
  | .datetime ts => "Timestamp(" ++ toString ts ++ ")"
  | .date d => "date(" ++ toString d ++ ")"

/-- The `str` entry of `TYPE_CONVERTERS`: wraps `pyStr`, never raises. -/
def pyStrConv (v : Value) : Except PyErrKind Value := .ok (.str (pyStr v))

/-- Python `bool(x)` on the modelled value domain: total, never raises
(inf and nan are truthy). -/
def pyBoolConv : Value → Except PyErrKind Value
  | .null => .ok (.bool false)
  | .int n => .ok (.bool (n != 0))
  | .float q => .ok (.bool (q != 0))
  | .floatInf _ => .ok (.bool true)
  | .floatNaN => .ok (.bool true)
  | .str s => .ok (.bool (s != ""))
  | .bool b => .ok (.bool b)
  | .datetime _ => .ok (.bool true)
  | .date _ => .ok (.bool true)

/-- Model of `lambda x: pd.to_datetime(x) if pd.notna(x) else None`
(sync.py lines 103-104): null-like input — None, and NaN, for which
`pd.notna` is false — yields None; finite numbers and date-time objects
convert (an out-of-ns-range number raises OutOfBoundsDatetime, a ValueError
subclass, not modelled — omitting it only drops caught failures); an infinite
float raises OutOfBoundsDatetime, a ValueError subclass; unparseable strings
raise pandas parser errors (ValueError subclasses); bools raise `TypeError`.
String date parsing is abstracted to integer-form strings. -/
def pdToDatetime : Value → Except PyErrKind Value
  | .null => .ok .null
  | .floatNaN => .ok .null
  | .datetime ts => .ok (.datetime ts)
  | .date d => .ok (.datetime (d * 86400))
  | .int n => .ok (.datetime n)
  | .float q => .ok (.datetime (truncQ q))
  | .floatInf _ => .error .valueError
  | .str s =>
    match parseIntStr s with
    | some n => .ok (.datetime n)
    | none => .error .valueError
  | .bool _ => .error .typeError

/-- Model of `lambda x: pd.to_datetime(x).date() if pd.notna(x) else None`
(sync.py line 102): as `pdToDatetime` but truncated to a date. -/
def pdToDate : Value → Except PyErrKind Value
  | .null => .ok .null
  | .floatNaN => .ok .null
  | .datetime ts => .ok (.date (ts / 86400))
  | .date d => .ok (.date d)
  | .int n => .ok (.date (n / 86400))
  | .float q => .ok (.date (truncQ q / 86400))
  | .floatInf _ => .error .valueError
  | .str s =>
    match parseIntStr s with
    | some n => .ok (.date (n / 86400))
    | none => .error .valueError
  | .bool _ => .error .typeError

/-- `DataTypeConverter.TYPE_CONVERTERS` (sync.py lines 83-108): mapping from
ClickHouse type tag to Python conversion function. -/
def TYPE_CONVERTERS : List (String × (Value → Except PyErrKind Value)) :=
  [("Int8", pyInt), ("Int16", pyInt), ("Int32", pyInt), ("Int64", pyInt),
   ("Int128", pyInt), ("Int256", pyInt),
   ("UInt8", pyInt), ("UInt16", pyInt), ("UInt32", pyInt), ("UInt64", pyInt),
   ("UInt128", pyInt), ("UInt256", pyInt),
   ("Float32", pyFloat), ("Float64", pyFloat), ("Decimal", pyFloat),
   ("String", pyStrConv), ("FixedString", pyStrConv), ("UUID", pyStrConv),
   ("Date", pdToDate), ("DateTime", pdToDatetime), ("DateTime64", pdToDatetime),
   ("Enum8", pyStrConv), ("Enum16", pyStrConv), ("Bool", pyBoolConv)]

/-- `DataTypeConverter.DEFAULT_VALUES` (sync.py lines 111-136): the default
substituted for a null or unconvertible source value, per type tag. -/
def DEFAULT_VALUES : List (String × Value) :=
  [("Int8", .int 0), ("Int16", .int 0), ("Int32", .int 0), ("Int64", .int 0),
   ("Int128", .int 0), ("Int256", .int 0),
   ("UInt8", .int 0), ("UInt16", .int 0), ("UInt32", .int 0), ("UInt64", .int 0),
   ("UInt128", .int 0), ("UInt256", .int 0),
   ("Float32", .float 0), ("Float64", .float 0), ("Decimal", .float 0),
   ("String", .str ""), ("FixedString", .str ""),
   ("UUID", .str "00000000-0000-0000-0000-000000000000"),
   ("Date", .null), ("DateTime", .null), ("DateTime64", .null),
   ("Enum8", .str ""), ("Enum16", .str ""), ("Bool", .bool false)]

/-- Python's `except (ValueError, TypeError)` clause in `_convert_value`
(sync.py line 235): which exception kinds are caught. -/
def caught (e : PyErrKind) : Bool :=
  match e with
  | .valueError => true
  | .typeError => true
  | .overflowError => false
  | .other => false

/-- `self.DEFAULT_VALUES.get(target_type, None)` (sync.py lines 221 and 238). -/
def defaultFor (t : String) : Value := (DEFAULT_VALUES.lookup t).getD .null

/-- `DataTypeConverter._convert_value` (sync.py lines 208-240): null goes to the
type default; an unknown tag passes the value through; a converter failure of a
caught kind (ValueError/TypeError) goes to the type default; any other
exception propagates. -/
def convert_value (v : Value) (t : String) : Except PyErrKind Value :=
  if v = .null then .ok (defaultFor t)
  else
    match TYPE_CONVERTERS.lookup t with
    | none => .ok v
    | some conv =>
      match conv v with
      | .ok r => .ok r
      | .error e => if caught e then .ok (defaultFor t) else .error e

/-- One field of `DataTypeConverter.convert_record` (sync.py lines 161-176):
columns in the schema mapping are converted, others pass through unchanged. -/
def convertField (m : List (String × String)) (c : String) (v : Value) :
    Except PyErrKind Value :=
  match m.lookup c with
  | some t => convert_value v t
  | none => .ok v

/-- `DataTypeConverter.convert_record` (sync.py lines 149-178): a record is an
ordered column-to-value mapping; fields are processed independently in order. -/
def convert_record (m : List (String × String)) :
    List (String × Value) → Except PyErrKind (List (String × Value))
  | [] => .ok []
  | (c, v) :: rest =>
    match convertField m c v with
    | .error e => .error e
    | .ok v₂ =>
      match convert_record m rest with
      | .error e => .error e
      | .ok rest₂ => .ok ((c, v₂) :: rest₂)

/-- `DataTypeConverter.convert_records` (sync.py lines 180-206): an empty batch
yields an empty batch; otherwise each record is converted in order (the list
comprehension at line 195). -/
def convert_records (m : List (String × String)) :
    List (List (String × Value)) → Except PyErrKind (List (List (String × Value)))
  | [] => .ok []
  | r :: rs =>
    match convert_record m r with
    | .error e => .error e
    | .ok r₂ =>
      match convert_records m rs with
      | .error e => .error e
      | .ok rs₂ => .ok (r₂ :: rs₂)

/-- Which of the probe queries `get_last_sync_id` issues against the
destination raise an exception.  An error on a query is an external event; the
flags let the fallback structure of the code be stated. -/
structure Faults where
  existsErr : Bool
  maxErr : Bool
  countErr : Bool
  altErr : Bool
deriving DecidableEq

/-- Normal operation: no destination query fails. -/
def noFaults : Faults := ⟨false, false, false, false⟩

/-- The four queries `get_last_sync_id` can issue (sync.py lines 518, 533-536,
551, 563-568), recorded so "probe X was / was not attempted" is provable. -/
inductive Probe
  | existsQ
  | maxQ
  | countQ
  | altQ
deriving DecidableEq

/-- The destination table of the sync: whether it exists and the identifier
column of its rows, in insertion order. -/
structure CHState where
  tableExists : Bool
  rows : List Nat
deriving DecidableEq

/-- `COALESCE(MAX(id_column), 0)` over the destination table: 0 when empty. -/
def maxId (l : List Nat) : Nat := l.foldr max 0

/-- Third probe of `get_last_sync_id` (sync.py lines 562-574):
`SELECT id_column FROM table ORDER BY id_column DESC LIMIT 1`; an empty result
yields 0 (line 572); a failure hits the `second_error` handler and returns 0
(lines 576-582). -/
def probeAlt (s : CHState) (f : Faults) (tr : List Probe) : Nat × List Probe :=
  if f.altErr then (0, tr ++ [Probe.altQ])
  else (maxId s.rows, tr ++ [Probe.altQ])

/-- Second probe of `get_last_sync_id` (sync.py lines 549-560):
`SELECT COUNT(*)`; a failure returns 0 via the `second_error` handler; a zero
count returns 0 immediately (lines 558-560) without the third probe; otherwise
the third probe runs. -/
def probeCount (s : CHState) (f : Faults) (tr : List Probe) : Nat × List Probe :=
  if f.countErr then (0, tr ++ [Probe.countQ])
  else if s.rows.length = 0 then (0, tr ++ [Probe.countQ])
  else probeAlt s f (tr ++ [Probe.countQ])

/-- First probe of `get_last_sync_id` (sync.py lines 533-547):
`SELECT COALESCE(MAX(id_column), '0')`; on success its value is returned, on
failure (`first_error`) the count probe runs. -/
def probeMax (s : CHState) (f : Faults) (tr : List Probe) : Nat × List Probe :=
  if f.maxErr then probeCount s f (tr ++ [Probe.maxQ])
  else (maxId s.rows, tr ++ [Probe.maxQ])

/-- `ClickHouseConnector.get_last_sync_id` (sync.py lines 511-587).  The
`EXISTS TABLE` check runs first: if it succeeds and the table is absent the
zero watermark is returned (line 526); if the check itself errors, the error is
caught and control falls through to the MAX probe (lines 529-530).  Every code
path returns a value — the outer handler (lines 584-587) returns 0 — so the
embedding is a total function; no `Except` is needed. -/
def get_last_sync_id (s : CHState) (f : Faults) : Nat × List Probe :=
  if f.existsErr then probeMax s f [Probe.existsQ]
  else if s.tableExists then probeMax s f [Probe.existsQ]
  else (0, [Probe.existsQ])

/-- `ClickHouseConnector.insert_data` (sync.py lines 429-509): records are
split into sub-batches of 10,000 (line 460) inserted sequentially.  `fault =
some k` means the insert of sub-batch `k` raises: the earlier sub-batches stay
inserted, the error is re-raised (line 509) and the call reports no count.
`fault = none` is a fully successful insert returning the inserted count. -/
def insert_data (s : CHState) (ids : List Nat) (fault : Option Nat) :
    CHState × Option Nat :=
  match fault with
  | none => ({ s with rows := s.rows ++ ids }, some ids.length)
  | some k => ({ s with rows := s.rows ++ ids.take (k * 10000) }, none)

/-- `OracleToClickHouseSyncer.sync` (sync.py lines 619-707) at the watermark
level of abstraction: resolve the watermark, run the source query bound to it
(`source` maps a watermark to the identifiers the fixed Oracle query returns),
return 0 on an empty result (line 655-657), otherwise insert.  `some n` is a
completed pass, `none` a pass that raised (insert failure re-raised at line
705).  The identifier column is mapped to `String` and converted identically,
so inserted identifiers reach the table unchanged. -/
def syncPass (source : Nat → List Nat) (f : Faults) (insFault : Option Nat)
    (s : CHState) : CHState × Option Nat :=
  let ids := source (get_last_sync_id s f).1
  if ids.isEmpty then (s, some 0)
  else insert_data s ids insFault

/-- The source identifiers a pass actually gets into the destination table:
all fetched identifiers on a successful insert, the completed sub-batch prefix
when the insert fails at sub-batch `k`, nothing on an empty fetch. -/
def passInserted (source : Nat → List Nat) (f : Faults) (insFault : Option Nat)
    (s : CHState) : List Nat :=
  let ids := source (get_last_sync_id s f).1
  if ids.isEmpty then []
  else
    match insFault with
    | none => ids
    | some k => ids.take (k * 10000)

/-- A sequence of replication passes, each with its own fault schedule, as run
by the scheduling loop. -/
def runPasses (source : Nat → List Nat) :
    List (Faults × Option Nat) → CHState → CHState
  | [], s => s
  | (f, insF) :: rest, s => runPasses source rest (syncPass source f insF s).1

/-- The batched fetch loop of `OracleConnector.execute_query` (sync.py lines
320-334): repeated `fetchmany(batch_size)` calls; an empty fetch breaks before
extending; a short fetch breaks after extending.  Returns the sizes of the
fetched chunks for a result set of `n` rows.  Structural fuel (`n + 1` at the
top level) makes the definition kernel-reducible. -/
def fetchChunksAux (b : Nat) : Nat → Nat → List Nat
  | _, 0 => []
  | n, fuel + 1 =>
    let c := min b n
    if c = 0 then []
    else if c < b then [c]
    else c :: fetchChunksAux b (n - c) fuel

/-- Chunk sizes fetched by `execute_query` for an `n`-row result set. -/
def fetchChunks (n b : Nat) : List Nat := fetchChunksAux b n (n + 1)

/-- The per-batch processing loop of `sync_oracle_to_clickhouse` (syncpl.py
lines 116-183): `fetchmany(batch_size)` until an empty fetch; each non-empty
chunk is converted with polars (row count preserved by `select`/`to_dicts`)
and inserted whole, so each cycle inserts exactly its chunk size. -/
def syncplCyclesAux (b : Nat) : Nat → Nat → List Nat
  | _, 0 => []
  | n, fuel + 1 =>
    let c := min b n
    if c = 0 then []
    else c :: syncplCyclesAux b (n - c) fuel

/-- Sizes of the fetch/convert/insert cycles of syncpl.py's loop for an
`n`-row result set. -/
def syncplCycles (n b : Nat) : List Nat := syncplCyclesAux b n (n + 1)

/-- Outcome of one `sync()` call as seen by a scheduling loop: a completed pass
with its row count, or a raised exception. -/
inductive PassOutcome
  | ok (n : Nat)
  | err
deriving DecidableEq

/-- Observable fate of a main function after consuming a finite prefix of pass
outcomes: returned normally (process exit code 0), called `sys.exit` with the
given code, or still inside its loop having completed `passes` passes. -/
inductive MainResult
  | exitNormal
  | exitFail (code : Nat)
  | running (passes : Nat)
deriving DecidableEq

/-- The ClickHouse readiness loop of sync.py's `main` (lines 822-831):
`retries = 5; while retries > 0: try connect / break; except: retries -= 1`.
`att i` tells whether connection attempt `i` succeeds.  Returns whether a
connection was established within the budget. -/
def chWaitLoop (att : Nat → Bool) : Nat → Nat → Bool
  | _, 0 => false
  | i, r + 1 => if att i then true else chWaitLoop att (i + 1) r

/-- The periodic loop of sync.py's `main` (lines 860-864): `while True: sleep;
syncer.sync()`.  A raised `sync()` propagates out of the loop into the
handler at lines 868-871, which calls `sys.exit(1)`. -/
def syncMainLoop : List PassOutcome → Nat → MainResult
  | [], k => .running k
  | .ok _ :: rest, k => syncMainLoop rest (k + 1)
  | .err :: _, _ => .exitFail 1

/-- sync.py `main` (lines 763-881) from the readiness loop on: exhausted
retries hit the plain `return` at line 835 (normal return, exit code 0); then
the initial sync runs (line 853, a failure reaches `sys.exit(1)` via lines
868-871); in container mode the periodic loop follows, otherwise main returns. -/
def sync_main (att : Nat → Bool) (container : Bool) (outs : List PassOutcome) :
    MainResult :=
  if chWaitLoop att 0 5 then
    match outs with
    | [] => .running 0
    | .err :: _ => .exitFail 1
    | .ok _ :: rest => if container then syncMainLoop rest 1 else .exitNormal
  else .exitNormal

/-- `sync_oracle_to_clickhouse` (syncpl.py lines 19-192) catches every
exception of its own body and returns 0 (lines 188-192), so a failed pass
yields the count 0 and never raises to the caller. -/
def syncpl_sync (o : PassOutcome) : Nat :=
  match o with
  | .ok n => n
  | .err => 0

/-- syncpl.py `main` loop (lines 194-209): `while True: try sync / except log;
if container: sleep else break`.  Each iteration consumes one pass outcome;
errors are caught inside the loop; non-container mode breaks after the first
pass (normal return). -/
def syncplLoop (container : Bool) : List PassOutcome → Nat → MainResult
  | [], k => .running k
  | _ :: rest, k =>
    if container then syncplLoop container rest (k + 1) else .exitNormal

/-- syncpl.py `main` (lines 194-209). -/
def syncpl_main (container : Bool) (outs : List PassOutcome) : MainResult :=
  syncplLoop container outs 0

/-- Concrete source fixture used by the watermark-monotonicity witness: at
watermark 0 the Oracle query returns identifiers 3 and 5, afterwards nothing. -/
def wSource : Nat → List Nat := fun w => if w = 0 then [3, 5] else []

/-- A record all of whose mapped-column coercion failures are of kinds the
`except (ValueError, TypeError)` clause of `_convert_value` catches.  Records
outside this class — e.g. one holding an integer of magnitude ≥ 2^1024 in a
Float64 column — make the program raise an uncaught OverflowError. -/
def RecordCaughtOnly (m : List (String × String))
    (rec : List (String × Value)) : Prop :=
  ∀ p ∈ rec, ∀ (t : String) (g : Value → Except PyErrKind Value)
    (e : PyErrKind),
    List.lookup p.1 m = some t → List.lookup t TYPE_CONVERTERS = some g →
    g p.2 = .error e → caught e = true

/- ### Helper lemmas about the converter -/

theorem convert_value_ok_of_caught (v : Value) (t : String)
    (h : ∀ (g : Value → Except PyErrKind Value) (e : PyErrKind),
      List.lookup t TYPE_CONVERTERS = some g → g v = .error e →
      caught e = true) :
    ∃ r, convert_value v t = .ok r := by
  by_cases hv : v = Value.null
  · exact ⟨defaultFor t, by simp [convert_value, hv]⟩
  · cases hl : List.lookup t TYPE_CONVERTERS with
    | none => exact ⟨v, by simp [convert_value, hv, hl]⟩
    | some g =>
      cases hg : g v with
      | ok r => exact ⟨r, by simp [convert_value, hv, hl, hg]⟩
      | error e =>
        have hc : caught e = true := h g e hl hg
        exact ⟨defaultFor t, by simp [convert_value, hv, hl, hg, hc]⟩

theorem convert_record_ok_of_caught (m : List (String × String)) :
    ∀ rec : List (String × Value), RecordCaughtOnly m rec →
      ∃ out, convert_record m rec = .ok out ∧ out.length = rec.length := by
  intro rec
  induction rec with
  | nil => intro h; exact ⟨[], rfl, rfl⟩
  | cons p rest ih =>
    intro h
    obtain ⟨c, v⟩ := p
    obtain ⟨out, hout, hlen⟩ :=
      ih (fun q hq t g e h1 h2 h3 =>
        h q (List.mem_cons_of_mem _ hq) t g e h1 h2 h3)
    have hf : ∃ v₂, convertField m c v = .ok v₂ := by
      cases hl : List.lookup c m with
      | none => exact ⟨v, by simp [convertField, hl]⟩
      | some t =>
        obtain ⟨r, hr⟩ := convert_value_ok_of_caught v t
          (fun g e hg hge => h (c, v) (List.mem_cons_self _ _) t g e hl hg hge)
        exact ⟨r, by simp [convertField, hl, hr]⟩
    obtain ⟨v₂, hv₂⟩ := hf
    exact ⟨(c, v₂) :: out, by simp [convert_record, hv₂, hout], by simp [hlen]⟩

theorem convert_record_append (m : List (String × String))
    (l₁ l₂ : List (String × Value)) (a b : List (String × Value))
    (h₁ : convert_record m l₁ = .ok a) (h₂ : convert_record m l₂ = .ok b) :
    convert_record m (l₁ ++ l₂) = .ok (a ++ b) := by
  induction l₁ generalizing a with
  | nil =>
    simp only [convert_record] at h₁
    cases h₁
    simpa using h₂
  | cons p rest ih =>
    obtain ⟨c, v⟩ := p
    cases hf : convertField m c v with
    | error e => simp [convert_record, hf] at h₁
    | ok v₂ =>
      cases hr : convert_record m rest with
      | error e => simp [convert_record, hf, hr] at h₁
      | ok a₂ =>
        simp only [convert_record, hf, hr, Except.ok.injEq] at h₁
        subst h₁
        simp [convert_record, hf, ih a₂ hr]

/- ### Helper lemmas about the destination state and the loops -/

theorem le_maxId_append (a b : List Nat) : maxId b ≤ maxId (a ++ b) := by
  induction a with
  | nil => simp
  | cons x xs ih => exact le_trans ih (Nat.le_max_right x (maxId (xs ++ b)))

theorem get_last_noFaults (s : CHState) (h : s.tableExists = true) :
    (get_last_sync_id s noFaults).1 = maxId s.rows := by
  simp [get_last_sync_id, noFaults, h, probeMax]

theorem syncPass_fst_tableExists (source : Nat → List Nat) (f : Faults)
    (insFault : Option Nat) (s : CHState) :
    ((syncPass source f insFault s).1).tableExists = s.tableExists := by
  by_cases hid : (source (get_last_sync_id s f).1).isEmpty
  · simp [syncPass, hid]
  · cases insFault <;> simp [syncPass, hid, insert_data]

theorem syncPass_fst_rows (source : Nat → List Nat) (f : Faults)
    (insFault : Option Nat) (s : CHState) :
    ((syncPass source f insFault s).1).rows
      = s.rows ++ passInserted source f insFault s := by
  by_cases hid : (source (get_last_sync_id s f).1).isEmpty
  · simp [syncPass, passInserted, hid]
  · cases insFault <;> simp [syncPass, passInserted, hid, insert_data]

theorem runPasses_tableExists (source : Nat → List Nat) :
    ∀ (sched : List (Faults × Option Nat)) (s : CHState),
      (runPasses source sched s).tableExists = s.tableExists := by
  intro sched
  induction sched with
  | nil => intro s; rfl
  | cons p rest ih =>
    intro s
    obtain ⟨f, insF⟩ := p
    exact (ih (syncPass source f insF s).1).trans
      (syncPass_fst_tableExists source f insF s)

theorem syncplLoop_running (outs : List PassOutcome) :
    ∀ k, syncplLoop true outs k = .running (k + outs.length) := by
  induction outs with
  | nil => intro k; simp [syncplLoop]
  | cons o rest ih =>
    intro k
    simp only [syncplLoop, if_true, ih (k + 1), List.length_cons]
    congr 1
    omega

theorem syncMainLoop_err (pre : List Nat) :
    ∀ k, syncMainLoop (pre.map PassOutcome.ok ++ [PassOutcome.err]) k
      = .exitFail 1 := by
  induction pre with
  | nil => intro k; rfl
  | cons x rest ih => intro k; simpa [syncMainLoop] using ih (k + 1)

/- ### The claims -/

/-- C1.  Watermark monotonicity: start from any destination state whose table
exists, run any sequence of replication passes (each with arbitrary probe
faults and insert failures), then run one more pass, pass N.  The watermark
resolved at the start of pass N+1 — computed by `get_last_sync_id` in normal
operation, i.e. as `MAX(id_column)` over the destination table — is ≥ the
largest source identifier pass N successfully inserted. -/
theorem watermark_monotonicity (source : Nat → List Nat)
    (sched : List (Faults × Option Nat)) (init : CHState)
    (hT : init.tableExists = true) (f : Faults) (insFault : Option Nat) :
    maxId (passInserted source f insFault (runPasses source sched init))
      ≤ (get_last_sync_id
          (syncPass source f insFault (runPasses source sched init)).1
          noFaults).1 := by
  have h1 : (runPasses source sched init).tableExists = true :=
    (runPasses_tableExists source sched init).trans hT
  have h2 : ((syncPass source f insFault (runPasses source sched init)).1).tableExists
      = true :=
    (syncPass_fst_tableExists source f insFault _).trans h1
  rw [get_last_noFaults _ h2, syncPass_fst_rows]
  exact le_maxId_append _ _

/-- C1 witness: the fixture source yields identifiers 3 and 5 at watermark 0;
after that first pass the next resolved watermark (5) dominates them. -/
theorem watermark_monotonicity_witness :
    maxId (passInserted wSource noFaults none (runPasses wSource [] ⟨true, []⟩))
      ≤ (get_last_sync_id
          (syncPass wSource noFaults none (runPasses wSource [] ⟨true, []⟩)).1
          noFaults).1 :=
  watermark_monotonicity wSource [] ⟨true, []⟩ rfl noFaults none

set_option maxRecDepth 8000 in
/-- C3 counterexample: Python `float()` on an integer of magnitude ≥ 2^1024
raises OverflowError, which `except (ValueError, TypeError)` at sync.py:235
does NOT catch.  On such a value in a Float64 column the coercion failure is
not replaced by the default: `convert_record` raises, the other field of the
record is lost, and `convert_records` aborts the batch before its second
record — refuting "no conversion failure aborts a batch". -/
theorem conversion_overflow_aborts :
    List.lookup "x" [("x", "Float64")] = some "Float64"
    ∧ List.lookup "Float64" TYPE_CONVERTERS = some pyFloat
    ∧ pyFloat (Value.int (Int.ofNat (2 ^ 1024))) = .error .overflowError
    ∧ caught .overflowError = false
    ∧ convert_record [("x", "Float64")]
        [("x", Value.int (Int.ofNat (2 ^ 1024))), ("y", Value.int 1)]
      = .error .overflowError
    ∧ convert_records [("x", "Float64")]
        [[("x", Value.int (Int.ofNat (2 ^ 1024)))], [("y", Value.int 1)]]
      = .error .overflowError := by
  refine ⟨rfl, rfl, ?_, rfl, ?_, ?_⟩ <;> decide

/-- C3 amended.  Caught-failure isolation: if the coercion function `g`
registered for the declared type `t` of column `c` fails on the record's
non-null value `v` with a kind the `except (ValueError, TypeError)` clause
catches, then — whenever the other fields of the record convert — the
converted record substitutes the type's default for that field only and
carries every other field exactly as it otherwise would, without raising; and
a batch all of whose coercion failures are of caught kinds is never aborted:
`convert_records` returns a converted batch of the same length.  (A failure of
an uncaught kind, such as OverflowError, propagates and aborts the batch.) -/
theorem conversion_failure_isolation
    (m : List (String × String)) (pre post pre₂ post₂ : List (String × Value))
    (c t : String) (v : Value) (g : Value → Except PyErrKind Value)
    (e : PyErrKind)
    (hm : List.lookup c m = some t)
    (hg : List.lookup t TYPE_CONVERTERS = some g)
    (hv : v ≠ Value.null)
    (hfail : g v = .error e)
    (hc : caught e = true)
    (hpre : convert_record m pre = .ok pre₂)
    (hpost : convert_record m post = .ok post₂) :
    convert_record m (pre ++ (c, v) :: post)
      = .ok (pre₂ ++ (c, defaultFor t) :: post₂)
    ∧ ∀ batch : List (List (String × Value)),
        (∀ rec ∈ batch, RecordCaughtOnly m rec) →
        ∃ out, convert_records m batch = .ok out
          ∧ out.length = batch.length := by
  have hfield : convertField m c v = .ok (defaultFor t) := by
    simp [convertField, hm, convert_value, hv, hg, hfail, hc]
  constructor
  · have hmid : convert_record m ((c, v) :: post)
        = .ok ((c, defaultFor t) :: post₂) := by
      simp [convert_record, hfield, hpost]
    exact convert_record_append m pre ((c, v) :: post) pre₂ _ hpre hmid
  · intro batch
    induction batch with
    | nil => exact fun _ => ⟨[], rfl, rfl⟩
    | cons r rs ih =>
      intro hb
      obtain ⟨out, hout, hlen⟩ :=
        ih (fun q hq => hb q (List.mem_cons_of_mem _ hq))
      obtain ⟨r₂, hr, hrlen⟩ :=
        convert_record_ok_of_caught m r (hb r (List.mem_cons_self _ _))
      exact ⟨r₂ :: out, by simp [convert_records, hr, hout], by simp [hlen]⟩

/-- C3 witness: column n is declared Int32; `int("abc")` raises ValueError, a
caught kind; the record converts with only that field defaulted to 0, its
neighbours untouched. -/
theorem conversion_failure_isolation_witness :
    List.lookup "n" [("n", "Int32")] = some "Int32"
    ∧ List.lookup "Int32" TYPE_CONVERTERS = some pyInt
    ∧ Value.str "abc" ≠ Value.null
    ∧ pyInt (Value.str "abc") = .error .valueError
    ∧ caught .valueError = true
    ∧ convert_record [("n", "Int32")] [("a", Value.bool true)]
        = .ok [("a", Value.bool true)]
    ∧ convert_record [("n", "Int32")] [("b", Value.int 9)]
        = .ok [("b", Value.int 9)]
    ∧ (convert_record [("n", "Int32")]
        ([("a", Value.bool true)] ++ ("n", Value.str "abc")
          :: [("b", Value.int 9)])
        = .ok ([("a", Value.bool true)] ++ ("n", defaultFor "Int32")
          :: [("b", Value.int 9)])
      ∧ ∀ batch : List (List (String × Value)),
          (∀ rec ∈ batch, RecordCaughtOnly [("n", "Int32")] rec) →
          ∃ out, convert_records [("n", "Int32")] batch = .ok out
            ∧ out.length = batch.length) :=
  ⟨rfl, rfl, by decide, rfl, rfl, rfl, rfl,
    conversion_failure_isolation [("n", "Int32")] [("a", Value.bool true)]
      [("b", Value.int 9)] [("a", Value.bool true)] [("b", Value.int 9)]
      "n" "Int32" (Value.str "abc") pyInt .valueError
      rfl rfl (by decide) rfl rfl rfl rfl⟩

/-- C4.  Null defaulting: for every type tag of the schema mapping's closed
tag set, converting a null input yields exactly the documented default — 0 for
every integer width, 0.0 for floats and decimals, the empty string for
String/FixedString/Enum, the zero-UUID sentinel for UUID, null/unset for the
date-time types and false for Bool. -/
theorem null_defaults :
    (∀ t ∈ ["Int8", "Int16", "Int32", "Int64", "Int128", "Int256", "UInt8",
        "UInt16", "UInt32", "UInt64", "UInt128", "UInt256"],
      convert_value Value.null t = .ok (Value.int 0))
    ∧ (∀ t ∈ ["Float32", "Float64", "Decimal"],
      convert_value Value.null t = .ok (Value.float 0))
    ∧ (∀ t ∈ ["String", "FixedString", "Enum8", "Enum16"],
      convert_value Value.null t = .ok (Value.str ""))
    ∧ convert_value Value.null "UUID"
        = .ok (Value.str "00000000-0000-0000-0000-000000000000")
    ∧ (∀ t ∈ ["Date", "DateTime", "DateTime64"],
      convert_value Value.null t = .ok Value.null)
    ∧ convert_value Value.null "Bool" = .ok (Value.bool false) := by
  decide

/-- C5.  Fallback watermark resolution, `get_last_sync_id`: the embedding is a
total function (every code path of the Python returns), and: a destination
table found absent yields the zero watermark; whenever the MAX probe runs and
fails, the count probe runs; if the count probe succeeds with count 0, the
zero watermark is returned and the third (ORDER BY ... DESC LIMIT 1) probe is
never attempted; with a nonzero count the third probe is attempted; and if the
remaining strategies fail too, the zero watermark is returned. -/
theorem get_last_sync_id_fallback (s : CHState) (f : Faults) :
    (f.existsErr = false → s.tableExists = false →
      get_last_sync_id s f = (0, [Probe.existsQ]))
    ∧ (f.existsErr = true ∨ s.tableExists = true →
        (f.maxErr = true → Probe.countQ ∈ (get_last_sync_id s f).2)
        ∧ (f.maxErr = true → f.countErr = false → s.rows.length = 0 →
            (get_last_sync_id s f).1 = 0
            ∧ Probe.altQ ∉ (get_last_sync_id s f).2)
        ∧ (f.maxErr = true → f.countErr = false → s.rows.length ≠ 0 →
            Probe.altQ ∈ (get_last_sync_id s f).2)
        ∧ (f.maxErr = true → (f.countErr = true ∨ f.altErr = true) →
            (get_last_sync_id s f).1 = 0)) := by
  constructor
  · intro he ht
    simp [get_last_sync_id, he, ht]
  · intro hreach
    have hg : get_last_sync_id s f = probeMax s f [Probe.existsQ] := by
      cases he : f.existsErr with
      | true => simp [get_last_sync_id, he]
      | false =>
        have ht : s.tableExists = true := by
          rcases hreach with h | h
          · rw [he] at h; exact absurd h (by simp)
          · exact h
        simp [get_last_sync_id, he, ht]
    refine ⟨?_, ?_, ?_, ?_⟩
    · intro hmax
      by_cases hc : f.countErr = true
      · simp [hg, probeMax, hmax, probeCount, hc]
      · simp only [Bool.not_eq_true] at hc
        by_cases hz : s.rows.length = 0
        · simp [hg, probeMax, hmax, probeCount, hc, hz]
        · by_cases ha : f.altErr = true <;>
            simp [hg, probeMax, hmax, probeCount, probeAlt, hc, hz, ha]
    · intro hmax hc hz
      simp [hg, probeMax, hmax, probeCount, hc, hz]
    · intro hmax hc hz
      by_cases ha : f.altErr = true <;>
        simp [hg, probeMax, hmax, probeCount, probeAlt, hc, hz, ha]
    · intro hmax hco
      rcases hco with hc | ha
      · simp [hg, probeMax, hmax, probeCount, hc]
      · by_cases hc : f.countErr = true
        · simp [hg, probeMax, hmax, probeCount, hc]
        · simp only [Bool.not_eq_true] at hc
          by_cases hz : s.rows.length = 0
          · simp [hg, probeMax, hmax, probeCount, hc, hz]
          · simp [hg, probeMax, hmax, probeCount, probeAlt, hc, hz, ha]

/-- C5 witness: table exists, MAX probe faults, the table is empty — the
resolution returns 0 from the count probe and the third probe never runs. -/
theorem get_last_sync_id_fallback_witness :
    (get_last_sync_id ⟨true, []⟩ ⟨false, true, false, false⟩).1 = 0
    ∧ Probe.altQ ∉ (get_last_sync_id ⟨true, []⟩ ⟨false, true, false, false⟩).2 :=
  ((get_last_sync_id_fallback ⟨true, []⟩ ⟨false, true, false, false⟩).2
    (Or.inr rfl)).2.1 rfl rfl rfl

/-- C7.  Batch fidelity for a 2,500-row result set and batch size 1,000: the
batched fetch loop of `execute_query` performs exactly three `fetchmany`
cycles of 1,000, 1,000 and 500 rows summing to 2,500, and the per-batch
fetch/convert/insert loop of syncpl.py performs exactly three cycles of the
same sizes, so the rows inserted across the cycles sum to 2,500. -/
theorem batch_fidelity :
    fetchChunks 2500 1000 = [1000, 1000, 500]
    ∧ (fetchChunks 2500 1000).sum = 2500
    ∧ syncplCycles 2500 1000 = [1000, 1000, 500]
    ∧ (syncplCycles 2500 1000).length = 3
    ∧ (syncplCycles 2500 1000).sum = 2500 := by
  decide

/-- C8 counterexample: an unmapped column's value passes through `convert_record`
unchanged — an integer stays an integer — whereas its native string
representation, `str(5)`, would be a string value; the two differ.  So
unmapped columns are NOT output as their native string representation. -/
theorem unmapped_not_stringified :
    convert_record [("mapped", "Int32")] [("extra", Value.int 5)]
      = .ok [("extra", Value.int 5)]
    ∧ Value.int 5 ≠ Value.str (pyStr (Value.int 5)) :=
  ⟨rfl, by decide⟩

/-- C8 amended: for every record whose other fields convert, a column not
present in the schema mapping is output with its value unchanged — the
identity — and in particular NOT as its native string representation: when
`str(v)` differs from `v`, the converted record is provably not the one
holding the stringified value. -/
theorem unmapped_passthrough_value
    (m : List (String × String)) (pre post pre₂ post₂ : List (String × Value))
    (c : String) (v : Value)
    (hm : List.lookup c m = none)
    (hpre : convert_record m pre = .ok pre₂)
    (hpost : convert_record m post = .ok post₂) :
    convert_record m (pre ++ (c, v) :: post) = .ok (pre₂ ++ (c, v) :: post₂)
    ∧ (Value.str (pyStr v) ≠ v →
        convert_record m (pre ++ (c, v) :: post)
          ≠ .ok (pre₂ ++ (c, Value.str (pyStr v)) :: post₂)) := by
  have hfield : convertField m c v = .ok v := by simp [convertField, hm]
  have hmid : convert_record m ((c, v) :: post) = .ok ((c, v) :: post₂) := by
    simp [convert_record, hfield, hpost]
  have hmain : convert_record m (pre ++ (c, v) :: post)
      = .ok (pre₂ ++ (c, v) :: post₂) :=
    convert_record_append m pre ((c, v) :: post) pre₂ _ hpre hmid
  refine ⟨hmain, fun hne heq => hne ?_⟩
  rw [hmain] at heq
  have hlist : pre₂ ++ (c, v) :: post₂ = pre₂ ++ (c, Value.str (pyStr v)) :: post₂ :=
    Except.ok.inj heq
  have hpair : (c, v) = (c, Value.str (pyStr v)) :=
    (List.cons.inj (List.append_cancel_left hlist)).1
  exact ((Prod.mk.inj hpair).2).symm

/-- C8 amended witness: the raw integer 7 of an unmapped column survives
between converted fields, and the output is not the record holding "7". -/
theorem unmapped_passthrough_value_witness :
    List.lookup "extra" [("mapped", "Int32")] = none
    ∧ convert_record [("mapped", "Int32")] [("mapped", Value.int 1)]
        = .ok [("mapped", Value.int 1)]
    ∧ convert_record [("mapped", "Int32")] [] = .ok []
    ∧ (convert_record [("mapped", "Int32")]
          ([("mapped", Value.int 1)] ++ ("extra", Value.int 7) :: [])
        = .ok ([("mapped", Value.int 1)] ++ ("extra", Value.int 7) :: [])
      ∧ (Value.str (pyStr (Value.int 7)) ≠ Value.int 7 →
          convert_record [("mapped", "Int32")]
              ([("mapped", Value.int 1)] ++ ("extra", Value.int 7) :: [])
            ≠ .ok ([("mapped", Value.int 1)]
              ++ ("extra", Value.str (pyStr (Value.int 7))) :: []))) :=
  ⟨rfl, rfl, rfl,
    unmapped_passthrough_value [("mapped", "Int32")]
      [("mapped", Value.int 1)] [] [("mapped", Value.int 1)] []
      "extra" (Value.int 7) rfl rfl rfl⟩

set_option maxRecDepth 8000 in
/-- C9 counterexample: a record holding both an unmapped column u and a
Float64-mapped integer of magnitude ≥ 2^1024 makes `convert_record` raise an
uncaught OverflowError: no converted record is produced at all, so the
unmapped column's value is not output — refuting the claim for this record. -/
theorem unmapped_column_lost_on_overflow :
    List.lookup "u" [("x", "Float64")] = none
    ∧ convert_record [("x", "Float64")]
        [("u", Value.str "keep"), ("x", Value.int (Int.ofNat (2 ^ 1024)))]
      = .error .overflowError := by
  refine ⟨rfl, ?_⟩
  decide

/-- C9 amended.  Identity pass-through of unmapped columns: whenever the other
fields of the record convert, a column absent from the schema mapping appears
in the converted record at its position with its value unchanged.  (A record
with an uncaught coercion failure elsewhere produces no converted record at
all.) -/
theorem unmapped_identity
    (m : List (String × String)) (pre post pre₂ post₂ : List (String × Value))
    (c : String) (v : Value)
    (hm : List.lookup c m = none)
    (hpre : convert_record m pre = .ok pre₂)
    (hpost : convert_record m post = .ok post₂) :
    convert_record m (pre ++ (c, v) :: post)
      = .ok (pre₂ ++ (c, v) :: post₂) := by
  have hfield : convertField m c v = .ok v := by simp [convertField, hm]
  have hmid : convert_record m ((c, v) :: post) = .ok ((c, v) :: post₂) := by
    simp [convert_record, hfield, hpost]
  exact convert_record_append m pre ((c, v) :: post) pre₂ _ hpre hmid

/-- C9 witness: the datetime value of the unmapped column x survives
conversion unchanged between two mapped fields. -/
theorem unmapped_identity_witness :
    List.lookup "x" [("n", "Int32")] = none
    ∧ convert_record [("n", "Int32")] [("n", Value.int 1)]
        = .ok [("n", Value.int 1)]
    ∧ convert_record [("n", "Int32")] [("n", Value.str "2")]
        = .ok [("n", Value.int 2)]
    ∧ convert_record [("n", "Int32")]
          ([("n", Value.int 1)] ++ ("x", Value.datetime 42)
            :: [("n", Value.str "2")])
        = .ok ([("n", Value.int 1)] ++ ("x", Value.datetime 42)
            :: [("n", Value.int 2)]) :=
  ⟨rfl, rfl, rfl,
    unmapped_identity [("n", "Int32")] [("n", Value.int 1)]
      [("n", Value.str "2")] [("n", Value.int 1)] [("n", Value.int 2)]
      "x" (Value.datetime 42) rfl rfl rfl⟩

theorem defaults_lookup_none (t : String)
    (ht : List.lookup t TYPE_CONVERTERS = none) :
    List.lookup t DEFAULT_VALUES = none := by
  simp only [TYPE_CONVERTERS, List.lookup] at ht
  simp only [DEFAULT_VALUES, List.lookup]
  repeat' split at ht
  all_goals simp_all

/-- C10.  Unregistered type tags: for a tag with no entry in the converter
table (such a tag has no default either — the two tables share their key
set), `_convert_value` returns the raw value unchanged when it is non-null
and None when it is null, and never raises (it returns normally). -/
theorem unknown_tag_passthrough (t : String) (v : Value)
    (ht : List.lookup t TYPE_CONVERTERS = none) :
    convert_value v t = .ok (if v = Value.null then Value.null else v) := by
  by_cases hv : v = Value.null
  · simp [convert_value, hv, defaultFor, defaults_lookup_none t ht]
  · simp [convert_value, hv, ht]

/-- C10 witness: the tag Array is outside the converter table; a non-null
value passes through and a null maps to None. -/
theorem unknown_tag_passthrough_witness :
    List.lookup "Array" TYPE_CONVERTERS = none
    ∧ convert_value (Value.int 7) "Array"
        = .ok (if Value.int 7 = Value.null then Value.null else Value.int 7)
    ∧ convert_value Value.null "Array"
        = .ok (if Value.null = Value.null then Value.null else Value.null) :=
  ⟨rfl, unknown_tag_passthrough "Array" (Value.int 7) rfl,
    unknown_tag_passthrough "Array" Value.null rfl⟩

/-- C2 counterexample: with the destination reachable and container mode on,
an initial pass succeeds and the first periodic pass raises; sync.py's `main`
then reaches `sys.exit(1)` — the pass's failure escapes the `while True` loop
(sync.py lines 860-871) instead of being caught, so the process exits rather
than running 2 passes and continuing. -/
theorem sync_main_pass_failure_exits :
    sync_main (fun _ => true) true [PassOutcome.ok 3, PassOutcome.err]
      = .exitFail 1
    ∧ MainResult.exitFail 1 ≠ .running 2 := by
  decide

/-- C2 amended: pass-failure isolation holds for syncpl.py's loop — every
scheduled pass runs and the loop never exits, whatever the outcomes — but not
for sync.py's loop, where the first erring periodic pass makes the process
exit with code 1. -/
theorem scheduling_loop_failure_isolation :
    (∀ outs : List PassOutcome, syncpl_main true outs = .running outs.length)
    ∧ (∀ pre : List Nat,
        sync_main (fun _ => true) true
          (pre.map PassOutcome.ok ++ [PassOutcome.err]) = .exitFail 1) := by
  constructor
  · intro outs
    simpa using syncplLoop_running outs 0
  · intro pre
    cases pre with
    | nil => rfl
    | cons x rest =>
      simpa [sync_main, chWaitLoop] using syncMainLoop_err rest 1

/-- C6 counterexample: every ClickHouse connection attempt fails; sync.py's
`main` takes the plain `return` at line 835, a normal return — the process
exits with code 0, not a non-zero code. -/
theorem startup_exhaustion_exit_code_zero :
    sync_main (fun _ => false) true [] = .exitNormal
    ∧ MainResult.exitNormal ≠ .exitFail 1 := by
  decide

/-- C6 amended: if destination connectivity is not established within the
5-attempt startup budget, `main` returns normally before any pass runs — the
process stops, but with exit code 0, for every container mode and any would-be
pass outcomes. -/
theorem startup_exhaustion_returns (att : Nat → Bool)
    (h : ∀ i, i < 5 → att i = false) (container : Bool)
    (outs : List PassOutcome) :
    sync_main att container outs = .exitNormal := by
  have hw : chWaitLoop att 0 5 = false := by
    show (if att 0 then true else
           if att 1 then true else
             if att 2 then true else
               if att 3 then true else
                 if att 4 then true else false) = false
    rw [h 0 (by omega), h 1 (by omega), h 2 (by omega), h 3 (by omega),
      h 4 (by omega)]
    simp
  simp [sync_main, hw]

/-- C6 amended witness. -/
theorem startup_exhaustion_returns_witness :
    sync_main (fun _ => false) true [PassOutcome.ok 1] = .exitNormal :=
  startup_exhaustion_returns (fun _ => false) (fun _ _ => rfl) true
    [PassOutcome.ok 1]

end SupDash
